import Mathlib

/-!
Shallow embedding of the opchat-backend asynchronous message-delivery
pipeline: the worker retry state machine (`app/core/messaging/processor.py`),
the broker publish and dead-letter operations
(`app/core/messaging/broker.py`), and the idempotent message repository
(`app/repositories/message_repo.py`).

Machine-level details that no claim touches (logging, metrics counters, the
database session plumbing, pika connection management) are omitted; every
branch decision of the embedded functions mirrors the corresponding Python
control flow.  Two pieces the source calls for are absent from the staged
tree and are modelled from the spec, each marked in its doc comment: the
broker's delay-queue publish path, and the `idempotency_key` column of the
persisted message model.
-/

namespace OpChat

/-- The AMQP header map as used by this pipeline.  The code only ever reads or
writes the four keys `x-retry-count`, `x-max-retries`, `x-first-publish-time`
and `x-idempotency-key`, so the map is embedded as a record of optional
values; a record with all fields absent models the empty (falsy) dict. -/
structure DeliveryHeaders where
  xRetryCount : Option Nat
  xMaxRetries : Option Nat
  xFirstPublishTime : Option Nat
  xIdempotencyKey : Option String
  deriving DecidableEq, Repr

/-- Python dict truthiness for the header map: an empty dict is falsy. -/
def DeliveryHeaders.isEmptyMap (h : DeliveryHeaders) : Bool :=
  h.xRetryCount.isNone && h.xMaxRetries.isNone &&
    h.xFirstPublishTime.isNone && h.xIdempotencyKey.isNone

/-- `if properties.headers:` — None and the empty dict are falsy. -/
def headersTruthy : Option DeliveryHeaders → Bool
  | none => false
  | some h => !h.isEmptyMap

/-- A JSON object body as the processor reads it: each required field may be
absent, plus the `retry_count` field that `_handle_retry` writes back into the
body before re-publishing.  (The write-only `timestamp` field that
`_handle_retry` also sets is never read anywhere and is not modelled.) -/
structure MessageData where
  id : Option String
  chat_id : Option String
  sender_id : Option String
  content : Option String
  idempotency_key : Option String
  retry_count : Option Nat
  deriving DecidableEq, Repr

/-- The raw delivery body, classified by what `json.loads` does with it:
it raises `JSONDecodeError` (`malformed`), or returns a non-object JSON value
such as a number or array (`nonObject`), or returns a dict (`obj`). -/
inductive Body where
  | malformed
  | nonObject
  | obj (data : MessageData)
  deriving DecidableEq, Repr

/-- One AMQP delivery as the worker callback receives it: the
`properties.headers` map (possibly `None`) and the body. -/
structure Delivery where
  headers : Option DeliveryHeaders
  body : Body
  deriving DecidableEq, Repr

/-- The column names the staged `app/models/message.py` actually declares on
the `message` table. -/
def messageModelColumns : List String :=
  ["id", "chat_id", "sender_id", "content", "created_at"]

/-- The column `MessageRepo` filters on and constructs with, which the spec
mandates as a separate unique column of the persisted message but which is
absent from the staged model. -/
def idempotencyKeyColumn : String := "idempotency_key"

/-- Modelled from the spec: a persisted message row.  The staged
`app/models/message.py` declares only `messageModelColumns`; the separate
unique `idempotency_key` column that the spec's persistence contract
requires, that `MessageRepo` filters on and constructs with, and that the
repository's own tests assert, is missing from the staged model (every such
access raises there), so the row is modelled here with that column as the
spec and the repository code demand. -/
structure Message where
  mid : Nat
  chat_id : String
  sender_id : String
  content : String
  idempotency_key : String
  created_at : Nat
  deriving DecidableEq, Repr

/-- The message store: the list of persisted rows in insertion order, plus the
counter supplying fresh row ids. -/
structure DbState where
  messages : List Message
  nextId : Nat
  deriving DecidableEq, Repr

/-- The `message.created` event dict built by `_publish_created_message` /
`_publish_existing_message`. -/
structure CreatedEvent where
  id : Nat
  chat_id : String
  sender_id : String
  content : String
  created_at : Nat
  deriving DecidableEq, Repr

/-- `MessageRepo._get_by_idempotency_key_implementation`: first row whose
`idempotency_key` equals the key.  On the staged code this query raises,
because `Message.idempotency_key` does not exist (see `Message`); the lookup
is embedded over the spec-modelled row. -/
def get_by_idempotency_key (rows : List Message) (key : String) : Option Message :=
  rows.find? (fun m => m.idempotency_key == key)

/-- `MessageRepo._create_message_implementation`: check idempotency first and
return the existing row if found; otherwise insert a new row and return it.
On the staged code both the filter and the `Message(...)` constructor raise
for the missing `idempotency_key` column (see `Message`); the create path is
embedded over the spec-modelled row. -/
def create_message_implementation (db : DbState)
    (chat_id sender_id content idempotency_key : String) (now : Nat) :
    Message × DbState :=
  match get_by_idempotency_key db.messages idempotency_key with
  | some existing => (existing, db)
  | none =>
      let message : Message :=
        { mid := db.nextId, chat_id := chat_id, sender_id := sender_id,
          content := content, idempotency_key := idempotency_key, created_at := now }
      (message, { messages := db.messages ++ [message], nextId := db.nextId + 1 })

/-- `MessageProcessor._validate_message_data`: all required fields present. -/
def validate_message_data (d : MessageData) : Bool :=
  d.id.isSome && d.chat_id.isSome && d.sender_id.isSome &&
    d.content.isSome && d.idempotency_key.isSome

/-- Reading `x-retry-count` / `x-max-retries` at the top of
`process_message_callback`: the defaults `(0, 3)` apply when the header map is
`None`/empty or lacks `x-retry-count`; `x-max-retries` is only consulted (with
default 3) when `x-retry-count` is present. -/
def readRetryInfo : Option DeliveryHeaders → Nat × Nat
  | none => (0, 3)
  | some h =>
      match h.xRetryCount with
      | none => (0, 3)
      | some rc => (rc, h.xMaxRetries.getD 3)

/-- Modelled from the spec: `MessageBroker.publish_to_delay_queue` is called
by `MessageProcessor._handle_retry` but is not defined anywhere in the source
tree (nor is `setup_delay_queue`).  Per the spec, the delay path re-publishes
the event and the broker redelivers it to the worker queue after the computed
delay, with retry bookkeeping travelling in the delivery header map
(`retry-count`, `idempotency-key`); nothing in `_handle_retry`'s call passes
the original `x-max-retries` or `x-first-publish-time` along, so the
redelivered headers carry only what the updated event body supplies. -/
def publish_to_delay_queue (message_data : MessageData) : Delivery :=
  { headers := some
      { xRetryCount := message_data.retry_count,
        xMaxRetries := none,
        xFirstPublishTime := none,
        xIdempotencyKey := message_data.idempotency_key },
    body := .obj message_data }

/-- What the worker callback does with one delivery. `ackRetryScheduled d n`
means: the updated event was published into the delay path (to be redelivered
as `d` after `n` seconds) and the original delivery was then acked.
`raised` means an exception escaped the callback unhandled, so the original
delivery was neither acked nor nacked. -/
inductive Outcome where
  | ackCreated (ev : CreatedEvent)
  | ackExisting (ev : CreatedEvent)
  | nackFinal
  | ackRetryScheduled (redelivery : Delivery) (delaySeconds : Nat)
  | raised
  deriving DecidableEq, Repr

/-- `MessageProcessor._handle_retry`.  Under the retry budget it re-parses the
body: a body that fails to parse is nacked without requeue; a body parsing to
a non-object raises `TypeError` at `message_data["retry_count"] = ...`, which
has no handler and escapes; an object body gets `retry_count` incremented and
is sent to the delay queue with delay `2 ** retry_count`, after which the
original delivery is acked.  Over budget, the delivery is nacked without
requeue (dead-lettered). -/
def handle_retry (retry_count max_retries : Nat) (body : Body) : Outcome :=
  if retry_count < max_retries then
    match body with
    | .malformed => .nackFinal
    | .nonObject => .raised
    | .obj message_data =>
        let new_retry_count := retry_count + 1
        let delay_seconds := 2 ^ retry_count
        let updated := { message_data with retry_count := some new_retry_count }
        .ackRetryScheduled (publish_to_delay_queue updated) delay_seconds
  else .nackFinal

/-- The created-event dict built from a persisted row (identical in
`_publish_existing_message` and `_publish_created_message`). -/
def createdEventOf (m : Message) : CreatedEvent :=
  { id := m.mid, chat_id := m.chat_id, sender_id := m.sender_id,
    content := m.content, created_at := m.created_at }

/-- `MessageProcessor.process_message_callback` on one delivery.
`persistOk = false` models `_create_message` failing (it swallows the storage
exception and returns `None`), which routes into `_handle_retry`; a body that
parses to a non-object raises `AttributeError` at `message_data.get("id")`,
caught by the generic handler which also routes into `_handle_retry`. -/
def process_message_callback (dlv : Delivery) (db : DbState)
    (persistOk : Bool) (now : Nat) : Outcome × DbState :=
  let rm := readRetryInfo dlv.headers
  match dlv.body with
  | .malformed => (.nackFinal, db)
  | .nonObject => (handle_retry rm.1 rm.2 .nonObject, db)
  | .obj message_data =>
      if !validate_message_data message_data then
        (.nackFinal, db)
      else
        match get_by_idempotency_key db.messages (message_data.idempotency_key.getD "") with
        | some existing => (.ackExisting (createdEventOf existing), db)
        | none =>
            if persistOk then
              let r := create_message_implementation db
                (message_data.chat_id.getD "") (message_data.sender_id.getD "")
                (message_data.content.getD "") (message_data.idempotency_key.getD "") now
              (.ackCreated (createdEventOf r.1), r.2)
            else
              (handle_retry rm.1 rm.2 (.obj message_data), db)

/-- The delivery produced by `MessageBroker.publish_message_pending` arriving
at the worker queue: headers `x-retry-count = 0`, `x-max-retries = 3`,
`x-first-publish-time = now`, `x-idempotency-key` defaulting to `""`. -/
def pendingDelivery (message_data : MessageData) (now : Nat) : Delivery :=
  { headers := some
      { xRetryCount := some 0,
        xMaxRetries := some 3,
        xFirstPublishTime := some now,
        xIdempotencyKey := some (message_data.idempotency_key.getD "") },
    body := .obj message_data }

/-- Run the worker against one message under persistently failing storage:
process the delivery, follow the delay-path redelivery while the outcome is a
scheduled retry, and stop at any other outcome.  `fuel` bounds the recursion;
the trace lists every processing attempt's outcome in order. -/
def failTrace : Nat → Delivery → DbState → List Outcome
  | 0, _, _ => []
  | fuel + 1, dlv, db =>
      let r := process_message_callback dlv db false 0
      match r.1 with
      | .ackRetryScheduled redelivery _ => r.1 :: failTrace fuel redelivery r.2
      | _ => [r.1]

/-- The per-process publisher state of `MessageBroker`: the best-effort
in-memory dedup set of message ids already published.  The key is
`message_data.get("id")`, so a missing `"id"` contributes the key `None`. -/
structure BrokerState where
  processedMessageIds : List (Option String)
  deriving DecidableEq, Repr

/-- The JSON body a publisher serialises onto the wire: either a pending
event dict or a created event dict. -/
inductive WireBody where
  | pendingEvent (data : MessageData)
  | createdEvent (ev : CreatedEvent)
  deriving DecidableEq, Repr

/-- The delivery metadata + routing of a message as `basic_publish` sends it.
`timestampProp` is `BasicProperties.timestamp`, which none of the pipeline's
publish paths ever sets. -/
structure PublishedMessage where
  routingKey : String
  messageId : Option String
  headers : Option DeliveryHeaders
  timestampProp : Option Nat
  body : WireBody
  deriving DecidableEq, Repr

/-- `MessageBroker.publish_message_pending`: skip (returning the state
unchanged and publishing nothing) when the event's id is already in the dedup
set; otherwise publish with retry-tracking headers and record the id. -/
def publish_message_pending (st : BrokerState) (chat_id : String)
    (message_data : MessageData) (now : Nat) :
    BrokerState × Option PublishedMessage :=
  let message_id := message_data.id
  if st.processedMessageIds.contains message_id then
    (st, none)
  else
    let headers : DeliveryHeaders :=
      { xRetryCount := some 0,
        xMaxRetries := some 3,
        xFirstPublishTime := some now,
        xIdempotencyKey := some (message_data.idempotency_key.getD "") }
    let published : PublishedMessage :=
      { routingKey := "conv." ++ chat_id ++ ".message.pending",
        messageId := message_id,
        headers := some headers,
        timestampProp := none,
        body := .pendingEvent message_data }
    ({ processedMessageIds := st.processedMessageIds ++ [message_id] }, some published)

/-- `MessageBroker.publish_message_created`: persistent publish with the
event's id as message id, no headers, no dedup bookkeeping, no timestamp. -/
def publish_message_created (chat_id : String) (ev : CreatedEvent) :
    PublishedMessage :=
  { routingKey := "conv." ++ chat_id ++ ".message.created",
    messageId := some (toString ev.id),
    headers := none,
    timestampProp := none,
    body := .createdEvent ev }

/-- One entry sitting in the dead-letter queue, as `basic_get` returns it:
its properties (message id, headers, timestamp) and body. -/
structure DlqEntry where
  messageId : Option String
  headers : Option DeliveryHeaders
  timestampProp : Option Nat
  body : Body
  deriving DecidableEq, Repr

/-- The header mutation in `republish_dlq_messages`: only when the header map
is truthy (non-`None` and non-empty) is `x-retry-count` set to 0. -/
def resetRetryHeader (e : DlqEntry) : DlqEntry :=
  { e with headers :=
      match e.headers with
      | none => none
      | some h => if h.isEmptyMap then some h else some { h with xRetryCount := some 0 } }

/-- `MessageBroker.republish_dlq_messages`: pop entries from the DLQ while
fewer than `limit` have been republished, reset each popped entry's
`x-retry-count` header to 0, publish it to the `message_processor` queue
(default exchange), ack the DLQ entry, and return how many were republished,
together with the remaining DLQ contents and the republished deliveries. -/
def republish_dlq_messages : List DlqEntry → Nat → Nat × List DlqEntry × List DlqEntry
  | q, 0 => (0, q, [])
  | [], _ + 1 => (0, [], [])
  | e :: rest, limit + 1 =>
      let republished := resetRetryHeader e
      let r := republish_dlq_messages rest limit
      (r.1 + 1, r.2.1, republished :: r.2.2)

/-- `MessageBroker.cleanup_dlq_messages` inner loop over the queue contents:
pop the head; with `message_time = properties.timestamp or 0`, an entry with
`current_time - message_time > max_age_ms` is acked (removed) and the scan
continues, otherwise it is nacked back with requeue and scanning stops. -/
def cleanupLoop : List DlqEntry → Nat → Nat → Nat × List DlqEntry
  | [], _, _ => (0, [])
  | e :: rest, current_time, max_age_ms =>
      let message_time := e.timestampProp.getD 0
      if current_time - message_time > max_age_ms then
        let r := cleanupLoop rest current_time max_age_ms
        (r.1 + 1, r.2)
      else
        (0, e :: rest)

/-- `MessageBroker.cleanup_dlq_messages`: converts `max_age_hours` to
milliseconds and scans the DLQ oldest-first, returning the number removed and
the remaining queue. -/
def cleanup_dlq_messages (dlq : List DlqEntry) (current_time max_age_hours : Nat) :
    Nat × List DlqEntry :=
  let max_age_ms := max_age_hours * 60 * 60 * 1000
  cleanupLoop dlq current_time max_age_ms

/-- The age test applied by `cleanup_dlq_messages` to one entry. -/
def agedOut (current_time max_age_ms : Nat) (e : DlqEntry) : Bool :=
  current_time - e.timestampProp.getD 0 > max_age_ms

/-- A well-formed pending event, used as a concrete test vector. -/
def sampleEvent : MessageData :=
  { id := some "m1", chat_id := some "c1", sender_id := some "u1",
    content := some "hello", idempotency_key := some "k1", retry_count := none }

/-- The empty message store. -/
def emptyDb : DbState := { messages := [], nextId := 0 }

/-- The delivery the delay path redelivers after the worker's n-th
consecutive failure on `sampleEvent`. -/
def retryDeliveryAfter (n : Nat) : Delivery :=
  publish_to_delay_queue { sampleEvent with retry_count := some n }

/-- A dead-letter entry whose producer-set timestamp property is `t`. -/
def entryAt (t : Nat) : DlqEntry :=
  { messageId := some "m1", headers := none, timestampProp := some t,
    body := .obj sampleEvent }

/-- The trace of the worker on `sampleEvent` under persistently failing
storage, with fuel to spare. -/
def sampleFailTrace (fuel : Nat) : List Outcome :=
  failTrace fuel (pendingDelivery sampleEvent 0) emptyDb

/-
Theorems settling the claims.
-/

/-- C1 (counterexample): the claim says that after exactly `max_retries = 3`
consecutive persistence failures the message is nacked without requeue and is
never attempted again.  On the code, a pending event whose persistence always
fails is processed 4 times, not 3: the outcome following the 3rd consecutive
failure is yet another scheduled retry, and the final nack only happens after
the 4th failure. -/
theorem bounded_retries_as_stated_cex :
    (sampleFailTrace 10).length = 4 ∧
    (sampleFailTrace 10).get? 2 ≠ some Outcome.nackFinal ∧
    (sampleFailTrace 10).get? 3 = some Outcome.nackFinal := by
  decide

/-- Unfolding lemma: one processing attempt of the persistently-failing
run. -/
theorem failTrace_succ (fuel : Nat) (dlv : Delivery) (db : DbState) :
    failTrace (fuel + 1) dlv db =
      (match (process_message_callback dlv db false 0).1 with
        | Outcome.ackRetryScheduled redelivery _ =>
            (process_message_callback dlv db false 0).1
              :: failTrace fuel redelivery (process_message_callback dlv db false 0).2
        | _ => [(process_message_callback dlv db false 0).1]) := rfl

/-- One failing attempt on any valid, not-yet-persisted object body, for any
headers within the retry budget: the updated event is published to the delay
path and the original acked, with delay `2 ^ retry_count`. -/
theorem process_fail_step (d : MessageData) (hdrs : Option DeliveryHeaders)
    (db : DbState) (tnow : Nat)
    (hval : validate_message_data d = true)
    (hnew : get_by_idempotency_key db.messages (d.idempotency_key.getD "") = none)
    (hbudget : (readRetryInfo hdrs).1 < (readRetryInfo hdrs).2) :
    process_message_callback { headers := hdrs, body := .obj d } db false tnow
      = (Outcome.ackRetryScheduled
          (publish_to_delay_queue
            { d with retry_count := some ((readRetryInfo hdrs).1 + 1) })
          (2 ^ (readRetryInfo hdrs).1), db) := by
  simp [process_message_callback, handle_retry, hval, hnew, hbudget]

/-- The full worker run on any valid pending event whose key is not yet
persisted, under persistently failing storage: three delay-path retries
carrying counts 1, 2, 3 with delays 1s, 2s, 4s, then one final nack, for
every fuel of at least 4. -/
theorem failTrace_always_fail (k : Nat) (d : MessageData) (db : DbState)
    (now : Nat)
    (hval : validate_message_data d = true)
    (hnew : get_by_idempotency_key db.messages (d.idempotency_key.getD "") = none) :
    failTrace (k + 4) (pendingDelivery d now) db =
      [Outcome.ackRetryScheduled (publish_to_delay_queue { d with retry_count := some 1 }) 1,
       Outcome.ackRetryScheduled (publish_to_delay_queue { d with retry_count := some 2 }) 2,
       Outcome.ackRetryScheduled (publish_to_delay_queue { d with retry_count := some 3 }) 4,
       Outcome.nackFinal] := by
  have h0 : process_message_callback (pendingDelivery d now) db false 0
      = (Outcome.ackRetryScheduled
          (publish_to_delay_queue { d with retry_count := some 1 }) 1, db) :=
    process_fail_step d (pendingDelivery d now).headers db 0 hval hnew
      (show (0 : Nat) < 3 by decide)
  have h1 : process_message_callback
        (publish_to_delay_queue { d with retry_count := some 1 }) db false 0
      = (Outcome.ackRetryScheduled
          (publish_to_delay_queue { d with retry_count := some 2 }) 2, db) :=
    process_fail_step { d with retry_count := some 1 }
      (publish_to_delay_queue { d with retry_count := some 1 }).headers db 0
      hval hnew (show (1 : Nat) < 3 by decide)
  have h2 : process_message_callback
        (publish_to_delay_queue { d with retry_count := some 2 }) db false 0
      = (Outcome.ackRetryScheduled
          (publish_to_delay_queue { d with retry_count := some 3 }) 4, db) :=
    process_fail_step { d with retry_count := some 2 }
      (publish_to_delay_queue { d with retry_count := some 2 }).headers db 0
      hval hnew (show (2 : Nat) < 3 by decide)
  have h3 : process_message_callback
        (publish_to_delay_queue { d with retry_count := some 3 }) db false 0
      = (Outcome.nackFinal, db) := by
    have hval3 : validate_message_data { d with retry_count := some 3 } = true := hval
    simp [process_message_callback, handle_retry, readRetryInfo,
      publish_to_delay_queue, hval3, hval, hnew]
  show failTrace (k + 3 + 1) (pendingDelivery d now) db = _
  rw [failTrace_succ, h0]
  show Outcome.ackRetryScheduled (publish_to_delay_queue { d with retry_count := some 1 }) 1
      :: failTrace (k + 2 + 1) (publish_to_delay_queue { d with retry_count := some 1 }) db = _
  rw [failTrace_succ, h1]
  show Outcome.ackRetryScheduled (publish_to_delay_queue { d with retry_count := some 1 }) 1
      :: Outcome.ackRetryScheduled (publish_to_delay_queue { d with retry_count := some 2 }) 2
      :: failTrace (k + 1 + 1) (publish_to_delay_queue { d with retry_count := some 2 }) db = _
  rw [failTrace_succ, h2]
  show Outcome.ackRetryScheduled (publish_to_delay_queue { d with retry_count := some 1 }) 1
      :: Outcome.ackRetryScheduled (publish_to_delay_queue { d with retry_count := some 2 }) 2
      :: Outcome.ackRetryScheduled (publish_to_delay_queue { d with retry_count := some 3 }) 4
      :: failTrace (k + 0 + 1) (publish_to_delay_queue { d with retry_count := some 3 }) db = _
  rw [failTrace_succ, h3]

/-- C1 (amended): for every pending event (any valid event body, any store
not yet holding its key, any publish time) whose persistence keeps failing,
the worker processes the message exactly `max_retries + 1 = 4` times (the
initial delivery plus `max_retries` delay-path redeliveries), the header
retry count strictly increases `1, 2, 3` across the redeliveries so the
budget is exhausted, and the message is then nacked without requeue exactly
once, never attempted a 5th time (the trace is the same for every fuel of at
least 4). -/
theorem bounded_retries_amended (k : Nat) (d : MessageData) (db : DbState)
    (now : Nat)
    (hval : validate_message_data d = true)
    (hnew : get_by_idempotency_key db.messages (d.idempotency_key.getD "") = none) :
    failTrace (k + 4) (pendingDelivery d now) db =
      [Outcome.ackRetryScheduled (publish_to_delay_queue { d with retry_count := some 1 }) 1,
       Outcome.ackRetryScheduled (publish_to_delay_queue { d with retry_count := some 2 }) 2,
       Outcome.ackRetryScheduled (publish_to_delay_queue { d with retry_count := some 3 }) 4,
       Outcome.nackFinal] ∧
    (failTrace (k + 4) (pendingDelivery d now) db).count Outcome.nackFinal = 1 := by
  have h := failTrace_always_fail k d db now hval hnew
  refine ⟨h, ?_⟩
  rw [h]
  rfl

/-- C1 (witness): `bounded_retries_amended` exercised at the sample event on
the empty store with minimal fuel. -/
theorem bounded_retries_amended_witness :
    failTrace 4 (pendingDelivery sampleEvent 0) emptyDb =
      [Outcome.ackRetryScheduled (retryDeliveryAfter 1) 1,
       Outcome.ackRetryScheduled (retryDeliveryAfter 2) 2,
       Outcome.ackRetryScheduled (retryDeliveryAfter 3) 4,
       Outcome.nackFinal] :=
  (bounded_retries_amended 0 sampleEvent emptyDb 0 (by decide) (by decide)).1

/-- C2 (counterexample): the claim says the n-th redelivery carries
`retry_count = n - 1` on first receipt; on the code the first delay-path
redelivery already carries `x-retry-count = 1`, which the worker reads back
as retry count 1, not 0. -/
theorem retry_monotonicity_as_stated_cex :
    (sampleFailTrace 10).get? 0 =
      some (Outcome.ackRetryScheduled (retryDeliveryAfter 1) 1) ∧
    (readRetryInfo (retryDeliveryAfter 1).headers).1 = 1 ∧
    (1 : Nat) ≠ 0 := by
  decide

/-- C2 (amended): for every message (any valid event body, any store not yet
holding its key) whose persistence keeps failing, and every n from 1 to
`max_retries = 3`, the n-th delay-path redelivery carries `retry_count = n`
on first receipt (so the n-th delivery overall, counting the original,
carries `n - 1`), and the backoff computed before redelivery n is
`2 ^ (n - 1)` seconds (1s, 2s, 4s). -/
theorem retry_monotonicity_amended (k : Nat) (d : MessageData) (db : DbState)
    (now : Nat)
    (hval : validate_message_data d = true)
    (hnew : get_by_idempotency_key db.messages (d.idempotency_key.getD "") = none) :
    ∀ n, 1 ≤ n → n ≤ 3 →
      (failTrace (k + 4) (pendingDelivery d now) db).get? (n - 1)
        = some (Outcome.ackRetryScheduled
            (publish_to_delay_queue { d with retry_count := some n })
            (2 ^ (n - 1))) ∧
      (readRetryInfo (publish_to_delay_queue { d with retry_count := some n }).headers).1
        = n := by
  intro n hn1 hn3
  have h := failTrace_always_fail k d db now hval hnew
  rw [h]
  rcases (by omega : n = 1 ∨ n = 2 ∨ n = 3) with rfl | rfl | rfl
  · exact ⟨rfl, rfl⟩
  · exact ⟨rfl, rfl⟩
  · exact ⟨rfl, rfl⟩

/-- C2 (witness): `retry_monotonicity_amended` exercised at n = 1 on the
sample event over the empty store. -/
theorem retry_monotonicity_amended_witness :
    (failTrace 4 (pendingDelivery sampleEvent 0) emptyDb).get? 0
      = some (Outcome.ackRetryScheduled (retryDeliveryAfter 1) 1) ∧
    (readRetryInfo (retryDeliveryAfter 1).headers).1 = 1 :=
  retry_monotonicity_amended 0 sampleEvent emptyDb 0 (by decide) (by decide) 1
    (by decide) (by decide)

/-- C3: when persistence of a valid, not-yet-persisted pending event fails
and `retry_count < max_retries`, the worker increments the retry count,
re-publishes the updated event into the delay path (which redelivers it to
the worker queue, carrying the incremented count in its headers, after the
computed backoff `2 ^ retry_count` seconds), and then acks the original
delivery; the store is untouched, and the delay is a timed redelivery, not an
in-process sleep. -/
theorem persistence_failure_schedules_retry
    (d : MessageData) (rc mr fp : Nat) (ik : Option String)
    (db : DbState) (now : Nat)
    (hval : validate_message_data d = true)
    (hnew : get_by_idempotency_key db.messages (d.idempotency_key.getD "") = none)
    (hbudget : rc < mr) :
    process_message_callback
      { headers := some
          { xRetryCount := some rc, xMaxRetries := some mr,
            xFirstPublishTime := some fp, xIdempotencyKey := ik },
        body := .obj d } db false now
      = (Outcome.ackRetryScheduled
          (publish_to_delay_queue { d with retry_count := some (rc + 1) })
          (2 ^ rc), db) ∧
    (readRetryInfo (publish_to_delay_queue { d with retry_count := some (rc + 1) }).headers).1
      = rc + 1 := by
  constructor
  · simp [process_message_callback, readRetryInfo, handle_retry, hval, hnew, hbudget]
  · simp [publish_to_delay_queue, readRetryInfo]

/-- C3 (witness): concrete instance of `persistence_failure_schedules_retry`
at the sample event with retry count 0. -/
theorem persistence_failure_schedules_retry_witness :
    process_message_callback (pendingDelivery sampleEvent 0) emptyDb false 0
      = (Outcome.ackRetryScheduled (retryDeliveryAfter 1) 1, emptyDb) := by
  have h := persistence_failure_schedules_retry sampleEvent 0 3 0
    (some "k1") emptyDb 0 (by decide) (by decide) (by decide)
  exact h.1

/-- C4 (code bug): the spec's persistence contract, `MessageRepo`, and the
repository's own test `test_create_message_duplicate_idempotency` all
require an `idempotency_key` column that the staged `app/models/message.py`
does not declare, so on the staged code every create or lookup call raises
before any row is stored and the claimed idempotent behavior can never
occur.  This theorem records the missing column and proves the claimed
behavior of the create path over the spec-modelled store: for any key not
yet persisted, two calls with the same key and different content yield
exactly one stored row for that key, whose content is the one from the first
call; the second call returns the already-persisted row and leaves the store
unchanged. -/
theorem idempotent_persistence
    (db : DbState) (cid1 sid1 c1 cid2 sid2 c2 k : String) (t1 t2 : Nat)
    (hfresh : get_by_idempotency_key db.messages k = none)
    (_hdiff : c1 ≠ c2) :
    idempotencyKeyColumn ∉ messageModelColumns ∧
    (create_message_implementation
        (create_message_implementation db cid1 sid1 c1 k t1).2 cid2 sid2 c2 k t2).1
      = (create_message_implementation db cid1 sid1 c1 k t1).1 ∧
    (create_message_implementation
        (create_message_implementation db cid1 sid1 c1 k t1).2 cid2 sid2 c2 k t2).2
      = (create_message_implementation db cid1 sid1 c1 k t1).2 ∧
    (create_message_implementation db cid1 sid1 c1 k t1).1.content = c1 ∧
    ((create_message_implementation
        (create_message_implementation db cid1 sid1 c1 k t1).2 cid2 sid2 c2 k t2).2.messages.filter
      (fun m => m.idempotency_key == k)).length = 1 := by
  have hrow : ∀ x ∈ db.messages, ¬ (x.idempotency_key == k) = true := by
    simpa [get_by_idempotency_key, List.find?_eq_none] using hfresh
  set mNew : Message :=
    { mid := db.nextId, chat_id := cid1, sender_id := sid1,
      content := c1, idempotency_key := k, created_at := t1 } with hm
  have h1 : create_message_implementation db cid1 sid1 c1 k t1
      = (mNew, { messages := db.messages ++ [mNew], nextId := db.nextId + 1 }) := by
    simp [create_message_implementation, hfresh]
  have hfind2 : get_by_idempotency_key (db.messages ++ [mNew]) k = some mNew := by
    unfold get_by_idempotency_key at hfresh ⊢
    rw [List.find?_append, hfresh]
    simp
  have h2 : create_message_implementation
      { messages := db.messages ++ [mNew], nextId := db.nextId + 1 } cid2 sid2 c2 k t2
      = (mNew, { messages := db.messages ++ [mNew], nextId := db.nextId + 1 }) := by
    simp [create_message_implementation, hfind2]
  refine ⟨by decide, ?_, ?_, ?_, ?_⟩
  · rw [h1]; simpa using congrArg Prod.fst h2
  · rw [h1]; simpa using congrArg Prod.snd h2
  · rw [h1]
  · rw [h1]
    simp only []
    rw [show (create_message_implementation
        { messages := db.messages ++ [mNew], nextId := db.nextId + 1 } cid2 sid2 c2 k t2).2
      = { messages := db.messages ++ [mNew], nextId := db.nextId + 1 } from
        congrArg Prod.snd h2]
    rw [List.filter_append]
    rw [List.filter_eq_nil_iff.mpr hrow]
    simp

/-- C4 (witness): concrete instance of `idempotent_persistence` on the empty
store with contents "a" then "b" under the same key. -/
theorem idempotent_persistence_witness :
    (create_message_implementation
        (create_message_implementation emptyDb "c1" "u1" "a" "kk" 5).2
        "c1" "u1" "b" "kk" 6).2.messages.length = 1 ∧
    (create_message_implementation emptyDb "c1" "u1" "a" "kk" 5).1.content = "a" := by
  have h := idempotent_persistence emptyDb "c1" "u1" "a" "c1" "u1" "b" "kk" 5 6
    (by decide) (by decide)
  exact ⟨by decide, h.2.2.2.1⟩

/-- C5 (code bug): the worker's duplicate branch (processor.py lines 83-92)
treats a received pending event whose idempotency key already has a
persisted row as success — emit `message.created` for the existing row, ack
the delivery, persist nothing — but on the staged code that branch is
unreachable: the lookup at processor.py line 84 raises for the missing
`idempotency_key` column (see `Message`) into the retry path, and no row can
ever be persisted under a key in the first place.  This theorem records the
missing column and proves the branch's behavior over the spec-modelled
store, for any headers and whether or not storage would succeed. -/
theorem duplicate_delivery_ack_and_reemit
    (hdrs : Option DeliveryHeaders) (d : MessageData) (db : DbState)
    (persistOk : Bool) (now : Nat) (m : Message)
    (hval : validate_message_data d = true)
    (hex : get_by_idempotency_key db.messages (d.idempotency_key.getD "") = some m) :
    idempotencyKeyColumn ∉ messageModelColumns ∧
    process_message_callback { headers := hdrs, body := .obj d } db persistOk now
      = (Outcome.ackExisting (createdEventOf m), db) := by
  exact ⟨by decide, by simp [process_message_callback, hval, hex]⟩

/-- C5 (witness): concrete instance of `duplicate_delivery_ack_and_reemit`
with the sample event's row already persisted. -/
theorem duplicate_delivery_ack_and_reemit_witness :
    process_message_callback (pendingDelivery sampleEvent 0)
      { messages := [{ mid := 0, chat_id := "c1", sender_id := "u1",
                       content := "hello", idempotency_key := "k1", created_at := 9 }],
        nextId := 1 } true 7
      = (Outcome.ackExisting
          { id := 0, chat_id := "c1", sender_id := "u1",
            content := "hello", created_at := 9 },
         { messages := [{ mid := 0, chat_id := "c1", sender_id := "u1",
                          content := "hello", idempotency_key := "k1", created_at := 9 }],
           nextId := 1 }) := by
  have h := duplicate_delivery_ack_and_reemit
    (pendingDelivery sampleEvent 0).headers sampleEvent
    { messages := [{ mid := 0, chat_id := "c1", sender_id := "u1",
                     content := "hello", idempotency_key := "k1", created_at := 9 }],
      nextId := 1 } true 7
    { mid := 0, chat_id := "c1", sender_id := "u1",
      content := "hello", idempotency_key := "k1", created_at := 9 }
    (by decide) (by decide)
  exact h.2

/-- C6 (counterexample): the claim covers every delivery "missing any
required field", but a body that parses to a non-object JSON value (for
example the JSON number 42) has no fields at all and is not nacked without
requeue: the worker's generic exception handler routes it into the retry
path, where an unhandled `TypeError` escapes the callback, leaving the
delivery neither acked nor nacked. -/
theorem malformed_input_as_stated_cex :
    process_message_callback
      { headers := (pendingDelivery sampleEvent 0).headers, body := .nonObject }
      emptyDb true 0
      = (Outcome.raised, emptyDb) ∧
    Outcome.raised ≠ Outcome.nackFinal := by
  decide

/-- C6 (amended): every delivery whose body fails to parse, or parses to a
JSON object missing a required field (id, chat_id, sender_id, content,
idempotency_key), is nacked without requeue as a final classification:
no retry is scheduled, nothing is persisted, and no retry budget is
consumed — regardless of the headers carried. -/
theorem malformed_input_nacked_final
    (hdrs : Option DeliveryHeaders) (db : DbState) (persistOk : Bool)
    (now : Nat) (b : Body)
    (hb : b = Body.malformed ∨
      ∃ d, b = Body.obj d ∧ validate_message_data d = false) :
    process_message_callback { headers := hdrs, body := b } db persistOk now
      = (Outcome.nackFinal, db) := by
  rcases hb with hb | ⟨d, hbd, hinv⟩
  · subst hb
    simp [process_message_callback]
  · subst hbd
    simp [process_message_callback, hinv]

/-- C6 (witness): concrete instances of `malformed_input_nacked_final`: an
unparseable body, and an object body missing every field but the content. -/
theorem malformed_input_nacked_final_witness :
    process_message_callback { headers := none, body := Body.malformed }
        emptyDb true 0 = (Outcome.nackFinal, emptyDb) ∧
    process_message_callback
        { headers := none,
          body := Body.obj
            { id := none, chat_id := none, sender_id := none,
              content := some "x", idempotency_key := none, retry_count := none } }
        emptyDb true 0 = (Outcome.nackFinal, emptyDb) := by
  constructor
  · exact malformed_input_nacked_final none emptyDb true 0 Body.malformed (Or.inl rfl)
  · exact malformed_input_nacked_final none emptyDb true 0 _
      (Or.inr ⟨_, rfl, by decide⟩)

/-- A dead-letter entry that carries an exhausted retry header, as a
re-injection test vector. -/
def dlqFailedEntry : DlqEntry :=
  { messageId := some "m2",
    headers := some
      { xRetryCount := some 3, xMaxRetries := some 3,
        xFirstPublishTime := some 0, xIdempotencyKey := some "k2" },
    timestampProp := none,
    body := .obj sampleEvent }

/-- Whatever the original dead-letter headers were (absent, empty, or
carrying an exhausted count), the worker reads the re-injected delivery's
retry count as 0. -/
theorem readRetryInfo_resetRetryHeader (e : DlqEntry) :
    (readRetryInfo (resetRetryHeader e).headers).1 = 0 := by
  rcases e with ⟨mid, hs, ts, b⟩
  cases hs with
  | none => simp [resetRetryHeader, readRetryInfo]
  | some h =>
      by_cases hemp : h.isEmptyMap
      · have hrc : h.xRetryCount = none := by
          rcases h with ⟨rc, mr, fp, ik⟩
          cases rc <;> simp_all [DeliveryHeaders.isEmptyMap]
        simp [resetRetryHeader, hemp, readRetryInfo, hrc]
      · simp [resetRetryHeader, hemp, readRetryInfo]

/-- C7: `republish_dlq_messages` pops at most `limit` entries (exactly
`min limit (length dlq)`), leaves the rest of the dead-letter queue in place,
republishes exactly the popped entries in order with their `x-retry-count`
header reset, returns the number republished, and every re-injected delivery
arrives with an effective retry count of 0 as the worker reads it. -/
theorem republish_resets_retry_count (dlq : List DlqEntry) (limit : Nat) :
    (republish_dlq_messages dlq limit).1 = min limit dlq.length ∧
    (republish_dlq_messages dlq limit).2.1 = dlq.drop limit ∧
    (republish_dlq_messages dlq limit).2.2 = (dlq.take limit).map resetRetryHeader ∧
    ∀ p ∈ (republish_dlq_messages dlq limit).2.2,
      (readRetryInfo p.headers).1 = 0 := by
  induction dlq generalizing limit with
  | nil => cases limit <;> simp [republish_dlq_messages]
  | cons e rest ih =>
      cases limit with
      | zero => simp [republish_dlq_messages]
      | succ l =>
          obtain ⟨ih1, ih2, ih3, ih4⟩ := ih l
          refine ⟨?_, ?_, ?_, ?_⟩
          · simp [republish_dlq_messages, ih1, Nat.succ_min_succ]
          · simpa [republish_dlq_messages] using ih2
          · simp [republish_dlq_messages, ih3]
          · intro p hp
            simp only [republish_dlq_messages, List.mem_cons] at hp
            rcases hp with hp | hp
            · subst hp; exact readRetryInfo_resetRetryHeader e
            · exact ih4 p hp

/-- C7 (witness): concrete instance of `republish_resets_retry_count`:
re-injecting 2 of 3 dead-lettered entries, one of which carries an exhausted
retry header and one no headers at all. -/
theorem republish_resets_retry_count_witness :
    (republish_dlq_messages [dlqFailedEntry, entryAt 2, entryAt 3] 2).1 = 2 ∧
    (republish_dlq_messages [dlqFailedEntry, entryAt 2, entryAt 3] 2).2.1 = [entryAt 3] ∧
    ∀ p ∈ (republish_dlq_messages [dlqFailedEntry, entryAt 2, entryAt 3] 2).2.2,
      (readRetryInfo p.headers).1 = 0 := by
  have h := republish_resets_retry_count [dlqFailedEntry, entryAt 2, entryAt 3] 2
  exact ⟨h.1.trans (by decide), h.2.1.trans (by decide), h.2.2.2⟩

/-- On a queue whose timestamps are nondecreasing front-to-back (FIFO by
enqueue time), the cleanup scan removes exactly the entries whose age
strictly exceeds the cutoff and leaves every other entry in the queue. -/
theorem cleanupLoop_spec (dlq : List DlqEntry) (now maxAgeMs : Nat)
    (hfifo : dlq.Pairwise
      (fun a b => a.timestampProp.getD 0 ≤ b.timestampProp.getD 0)) :
    cleanupLoop dlq now maxAgeMs
      = ((dlq.filter (agedOut now maxAgeMs)).length,
         dlq.filter (fun e => !agedOut now maxAgeMs e)) := by
  induction dlq with
  | nil => simp [cleanupLoop]
  | cons e rest ih =>
      rcases List.pairwise_cons.mp hfifo with ⟨hhead, hrest⟩
      by_cases hc : now - e.timestampProp.getD 0 > maxAgeMs
      · have hb : agedOut now maxAgeMs e = true := by
          simp [agedOut, hc]
        simp [cleanupLoop, hc, hb, ih hrest]
      · have hb : agedOut now maxAgeMs e = false := by
          simp [agedOut]
          omega
        have hrestall : ∀ x ∈ rest, agedOut now maxAgeMs x = false := by
          intro x hx
          have hle := hhead x hx
          have hsub : now - x.timestampProp.getD 0 ≤ now - e.timestampProp.getD 0 :=
            Nat.sub_le_sub_left hle now
          simp [agedOut]
          omega
        have hnil : (e :: rest).filter (agedOut now maxAgeMs) = [] := by
          rw [List.filter_eq_nil_iff]
          intro x hx
          rcases List.mem_cons.mp hx with hx | hx
          · subst hx; simp [hb]
          · simp [hrestall x hx]
        have hself : (e :: rest).filter (fun x => !agedOut now maxAgeMs x) = e :: rest := by
          rw [List.filter_eq_self]
          intro x hx
          rcases List.mem_cons.mp hx with hx | hx
          · subst hx; simp [hb]
          · simp [hrestall x hx]
        simp [cleanupLoop, hc, hnil, hself]

/-- C8 (counterexample): the claim says cleanup removes exactly the entries
at least `max_age` old, but the code's age test is strict: a dead-letter
entry whose age is exactly `max_age` (timestamp 0, current time 3600000 ms,
`max_age` 1 hour) is nacked back and left in the queue, with nothing
removed. -/
theorem cleanup_as_stated_cex :
    cleanup_dlq_messages [entryAt 0] 3600000 1 = (0, [entryAt 0]) ∧
    3600000 - (0 : Nat) ≥ 1 * 60 * 60 * 1000 := by
  decide

/-- C8 (amended): on a dead-letter queue that is FIFO by enqueue time
(timestamps nondecreasing), cleanup pops oldest-first and removes (acks)
exactly the entries whose age strictly exceeds `max_age`; on encountering the
first entry aged at most `max_age` it nacks that entry back with requeue and
stops scanning, leaving it and all younger entries in place. -/
theorem cleanup_respects_ordering_amended (dlq : List DlqEntry)
    (now maxAgeHours : Nat)
    (hfifo : dlq.Pairwise
      (fun a b => a.timestampProp.getD 0 ≤ b.timestampProp.getD 0)) :
    (cleanup_dlq_messages dlq now maxAgeHours).1
      = (dlq.filter (agedOut now (maxAgeHours * 60 * 60 * 1000))).length ∧
    (cleanup_dlq_messages dlq now maxAgeHours).2
      = dlq.filter (fun e => !agedOut now (maxAgeHours * 60 * 60 * 1000) e) := by
  have h := cleanupLoop_spec dlq now (maxAgeHours * 60 * 60 * 1000) hfifo
  unfold cleanup_dlq_messages
  rw [h]
  exact ⟨rfl, rfl⟩

/-- C8 (witness): the spec's own scenario as a concrete instance of
`cleanup_respects_ordering_amended`: entries enqueued at T1 < T2 < T3 with a
`max_age` that ages out only T1 and T2 — cleanup removes exactly those two
and leaves T3. -/
theorem cleanup_respects_ordering_amended_witness :
    (cleanup_dlq_messages [entryAt 1000, entryAt 2000, entryAt 3000] 3603000 1).1 = 2 ∧
    (cleanup_dlq_messages [entryAt 1000, entryAt 2000, entryAt 3000] 3603000 1).2
      = [entryAt 3000] := by
  have h := cleanup_respects_ordering_amended
    [entryAt 1000, entryAt 2000, entryAt 3000] 3603000 1 (by decide)
  exact ⟨h.1.trans (by decide), h.2.trans (by decide)⟩

/-- A dead-letter entry with no producer-set timestamp property, as every
entry produced by this pipeline is. -/
def entryNoTimestamp : DlqEntry :=
  { messageId := some "m1", headers := none, timestampProp := none,
    body := .obj sampleEvent }

/-- C9: neither `publish_message_pending` nor `publish_message_created` ever
sets the AMQP timestamp property, and dead-letter cleanup ages an entry with
no timestamp from the epoch (`properties.timestamp or 0`): whenever the
current epoch time exceeds `max_age`, such an entry at the head of the queue
is removed by cleanup regardless of when it was actually enqueued. -/
theorem missing_timestamp_treated_as_epoch
    (st : BrokerState) (cid : String) (d : MessageData) (now : Nat)
    (ccid : String) (ev : CreatedEvent)
    (e : DlqEntry) (rest : List DlqEntry) (ct maxAgeHours : Nat)
    (hts : e.timestampProp = none)
    (hnow : maxAgeHours * 60 * 60 * 1000 < ct) :
    (∀ p, (publish_message_pending st cid d now).2 = some p →
      p.timestampProp = none) ∧
    (publish_message_created ccid ev).timestampProp = none ∧
    cleanup_dlq_messages (e :: rest) ct maxAgeHours
      = ((cleanup_dlq_messages rest ct maxAgeHours).1 + 1,
         (cleanup_dlq_messages rest ct maxAgeHours).2) := by
  refine ⟨?_, rfl, ?_⟩
  · intro p hp
    unfold publish_message_pending at hp
    by_cases hc : d.id ∈ st.processedMessageIds
    · simp [hc] at hp
    · simp [hc] at hp
      subst hp
      rfl
  · simp [cleanup_dlq_messages, cleanupLoop, hts, hnow]

/-- C9 (witness): concrete instance of `missing_timestamp_treated_as_epoch`:
a timestampless entry is removed by a 1-hour cleanup run one millisecond
past the hour, though it may have just been enqueued. -/
theorem missing_timestamp_treated_as_epoch_witness :
    cleanup_dlq_messages [entryNoTimestamp] 3600001 1 = (1, []) := by
  have h := missing_timestamp_treated_as_epoch ⟨[]⟩ "c1" sampleEvent 0 "c1"
    (createdEventOf { mid := 0, chat_id := "c1", sender_id := "u1",
                      content := "hello", idempotency_key := "k1", created_at := 0 })
    entryNoTimestamp [] 3600001 1 rfl (by decide)
  exact h.2.2.trans (by decide)

/-- A pending event lacking the `"id"` field. -/
def noIdEvent : MessageData :=
  { id := none, chat_id := some "c1", sender_id := some "u1",
    content := some "hello", idempotency_key := some "k9", retry_count := none }

/-- C10: the publisher's best-effort dedup set is keyed on the event's
`"id"` field, which may be absent: after one `publish_message_pending` call
with an event lacking `"id"` (which records the key `None` as seen), every
later `publish_message_pending` call with any event lacking `"id"` is
silently skipped — the state is unchanged and nothing is published — for the
lifetime of the process. -/
theorem dedup_key_none_blocks
    (st : BrokerState) (cid1 cid2 : String) (d1 d2 : MessageData) (n1 n2 : Nat)
    (h1 : d1.id = none) (h2 : d2.id = none) :
    publish_message_pending (publish_message_pending st cid1 d1 n1).1 cid2 d2 n2
      = ((publish_message_pending st cid1 d1 n1).1, none) := by
  set st1 := (publish_message_pending st cid1 d1 n1).1 with hst1
  have hmem : (none : Option String) ∈ st1.processedMessageIds := by
    rw [hst1]
    unfold publish_message_pending
    rw [h1]
    by_cases hc : (none : Option String) ∈ st.processedMessageIds
    · simp [hc]
    · simp [hc]
  show publish_message_pending st1 cid2 d2 n2 = (st1, none)
  unfold publish_message_pending
  rw [h2]
  simp [hmem]

/-- C10 (witness): concrete instance of `dedup_key_none_blocks`: starting
from a fresh broker, the second publish of an id-less event is skipped. -/
theorem dedup_key_none_blocks_witness :
    publish_message_pending (publish_message_pending ⟨[]⟩ "c1" noIdEvent 0).1
        "c2" noIdEvent 1
      = ((publish_message_pending ⟨[]⟩ "c1" noIdEvent 0).1, none) :=
  dedup_key_none_blocks ⟨[]⟩ "c1" "c2" noIdEvent noIdEvent 0 1 rfl rfl

end OpChat
